import Mathlib

/-!
Shallow embedding of the cart_helper repository's product-lookup core
(src/main.rs and src/ui/dmhelper.rs): JSON payload parsing into
`ApiResponse`, conversion to `Product`, the 30-minute product cache used by
`fetch_product_info`, and the cart merge logic of the GUI's
"Dodaj do koszyka" button.  Machine floats (`f32` prices) are modelled as
rationals; `chrono` timestamps as integer minutes; the network collaborator
as an explicit `Except` argument.
-/

/-- Model of `serde_json::Value`.  JSON numbers are modelled as integers,
which covers every numeric payload the program's claims exercise (GTIN
barcodes are integer literals). -/
inductive Json where
  | null : Json
  | bool (b : Bool) : Json
  | num (n : Int) : Json
  | str (s : String) : Json
  | arr (elems : List Json) : Json
  | obj (fields : List (String × Json)) : Json

/-- The parse-error taxonomy of the specification (section 7); the source
erases all of these into boxed string errors, the spec names them. -/
inductive ParseError where
  | UnexpectedShape : ParseError
  | MissingField (name : String) : ParseError
  | InvalidIdentifierType : ParseError
  | InvalidFieldType (name : String) : ParseError
deriving DecidableEq, Repr

/-- Model of `serde_json::Value`'s `Index<&str>` as used by
`item["src"]` in `deserialize_image` (src/ui/dmhelper.rs line 84): indexing
an object looks the key up and yields `Null` when absent; indexing any
non-object value also yields `Null`. -/
def jsonIndex (j : Json) (key : String) : Json :=
  match j with
  | .obj fields => (fields.lookup key).getD .null
  | _ => .null

mutual

/-- Model of `serde_json::Value::to_string` (compact rendering), as invoked
on `item["src"]` in `deserialize_image`.  String escaping is not modelled
beyond quoting, which is faithful for the quote-free URL strings the
program handles. -/
def renderJson : Json → String
  | .null => "null"
  | .bool b => cond b "true" "false"
  | .num n => toString n
  | .str s => "\"" ++ s ++ "\""
  | .arr elems => "[" ++ String.intercalate "," (renderJsonList elems) ++ "]"
  | .obj fields => "\x7b" ++ String.intercalate "," (renderJsonFields fields) ++ "\x7d"

/-- Renders each element of a JSON array. -/
def renderJsonList : List Json → List String
  | [] => []
  | x :: xs => renderJson x :: renderJsonList xs

/-- Renders each `"key":value` member of a JSON object. -/
def renderJsonFields : List (String × Json) → List String
  | [] => []
  | (k, v) :: xs => ("\"" ++ k ++ "\":" ++ renderJson v) :: renderJsonFields xs

end

/-- Model of `.replace("\"", "")` from `deserialize_image`: removes every
double-quote character. -/
def stripQuotes (s : String) : String :=
  (s.toList.filter (fun c => c ≠ '"')).asString

/-- Model of `deserialize_ean` (identical in src/main.rs lines 57-67 and
src/ui/dmhelper.rs lines 63-72): a JSON number is accepted and rendered to
its decimal string; any other JSON type is rejected ("EAN nie jest
liczbą", i.e. the spec's `InvalidIdentifierType`). -/
def deserializeEan (j : Json) : Except ParseError String :=
  match j with
  | .num n => .ok (toString n)
  | _ => .error .InvalidIdentifierType

/-- The per-entry extraction done by `deserialize_image`
(src/ui/dmhelper.rs line 84): `item["src"].to_string().replace("\"", "")`. -/
def extractSrc (item : Json) : String :=
  stripQuotes (renderJson (jsonIndex item "src"))

/-- Model of `deserialize_image` (src/ui/dmhelper.rs lines 74-90): a JSON
array maps every element through `extractSrc` and never fails; any
non-array value is rejected ("Unexpected image field type"). -/
def deserializeImage (j : Json) : Except ParseError (List String) :=
  match j with
  | .arr elems => .ok (elems.map extractSrc)
  | _ => .error (.InvalidFieldType "images")

/-- Model of the GUI's `ApiResponse` (src/ui/dmhelper.rs lines 13-21):
`gtin` via `deserialize_ean`, `title.headline`, `price.price`, and
`images` via `deserialize_image` (each image reduced to its `src` text). -/
structure ApiResponse where
  gtin : String
  headline : String
  priceStr : String
  images : List String
deriving DecidableEq, Repr

/-- Model of the CLI's `ApiResponse` (src/main.rs lines 10-16), which has
no `images` field. -/
structure ApiResponseMain where
  gtin : String
  headline : String
  priceStr : String
deriving DecidableEq, Repr

/-- Looks a required field up in a JSON object's field list; a missing
field is serde's missing-field error, the spec's `MissingField`. -/
def requireField (fields : List (String × Json)) (name : String) :
    Except ParseError Json :=
  match fields.lookup name with
  | some v => .ok v
  | none => .error (.MissingField name)

/-- Deserializes a `\x7b "headline": string \x7d` or
`\x7b "price": string \x7d` sub-object: the wrapper must be an object, the
named key must be present, and its value must be a JSON string. -/
def requireStrMember (j : Json) (name : String) : Except ParseError String :=
  match j with
  | .obj fields =>
    match fields.lookup name with
    | some (.str s) => .ok s
    | some _ => .error (.InvalidFieldType name)
    | none => .error (.MissingField name)
  | _ => .error (.InvalidFieldType name)

/-- Model of `ApiResponse::try_from(Value)` plus the derived serde
deserializer of the GUI's `ApiResponse` (src/ui/dmhelper.rs lines 47-61 and
13-21): a non-object payload or an empty object is the spec's
`UnexpectedShape`; otherwise each required field is looked up and
validated. -/
def parseApiResponse (j : Json) : Except ParseError ApiResponse :=
  match j with
  | .obj fields =>
    if fields.isEmpty then .error .UnexpectedShape
    else do
      let gtinJ ← requireField fields "gtin"
      let gtin ← deserializeEan gtinJ
      let titleJ ← requireField fields "title"
      let headline ← requireStrMember titleJ "headline"
      let priceJ ← requireField fields "price"
      let priceStr ← requireStrMember priceJ "price"
      let imagesJ ← requireField fields "images"
      let images ← deserializeImage imagesJ
      .ok ⟨gtin, headline, priceStr, images⟩
  | _ => .error .UnexpectedShape

/-- Model of `ApiResponse::try_from(Value)` for the CLI struct
(src/main.rs lines 41-55 and 10-16): as `parseApiResponse` but with no
`images` requirement. -/
def parseApiResponseMain (j : Json) : Except ParseError ApiResponseMain :=
  match j with
  | .obj fields =>
    if fields.isEmpty then .error .UnexpectedShape
    else do
      let gtinJ ← requireField fields "gtin"
      let gtin ← deserializeEan gtinJ
      let titleJ ← requireField fields "title"
      let headline ← requireStrMember titleJ "headline"
      let priceJ ← requireField fields "price"
      let priceStr ← requireStrMember priceJ "price"
      .ok ⟨gtin, headline, priceStr⟩
  | _ => .error .UnexpectedShape

/-- Digit accumulator for `parsePrice`: the numeric value of a digit
list, most significant first. -/
def digitsVal (cs : List Char) : Nat :=
  cs.foldl (fun a c => 10 * a + (c.toNat - Char.toNat '0')) 0

/-- Parses an unsigned decimal literal `digits [. digits]` as a rational;
`none` on anything else.  Models the grammar fragment of Rust's
`str::parse::<f32>` that the program's price strings exercise (the
`inf`/`nan`/exponent forms never arise from the catalog's price field). -/
def parseUnsigned (cs : List Char) : Option ℚ :=
  let intPart := cs.takeWhile Char.isDigit
  let rest := cs.dropWhile Char.isDigit
  match rest with
  | [] => if intPart.isEmpty then none else some (digitsVal intPart)
  | '.' :: frac =>
    if frac.all Char.isDigit ∧ (intPart ≠ [] ∨ frac ≠ []) then
      some ((digitsVal intPart : ℚ) + (digitsVal frac : ℚ) / (10 ^ frac.length))
    else none
  | _ => none

/-- Model of `api_response.price.price.parse::<f32>()`, with `f32` values
modelled as rationals: an optional sign followed by a decimal literal. -/
def parsePrice (s : String) : Option ℚ :=
  match s.toList with
  | '+' :: rest => parseUnsigned rest
  | '-' :: rest => (parseUnsigned rest).map (fun q => -q)
  | cs => parseUnsigned cs

/-- Model of the GUI's `Product` (src/ui/dmhelper.rs lines 38-45).  The
source field `image : Option<ColorImage>` holds the downloaded bitmap;
the download and decode are external I/O, so the model keeps the image
reference (the URL handed to `download_image`) instead of the pixels. -/
structure Product where
  ean : String
  name : String
  price : ℚ
  quantity : Int
  imageSrc : Option String
deriving DecidableEq, Repr

/-- Model of the CLI's `Product` (src/main.rs lines 28-34), which has no
image field. -/
structure ProductMain where
  ean : String
  name : String
  price : ℚ
  quantity : Int
deriving DecidableEq, Repr

/-- Model of `impl From<ApiResponse> for Product` in src/ui/dmhelper.rs
lines 122-140.  The source runs `api_response.images[0].src` unguarded:
on an empty images list this indexes out of bounds and panics, which the
model renders as `none`; on a non-empty list the conversion succeeds with
the first entry as the image reference. -/
def productFrom (r : ApiResponse) : Option Product :=
  match r.images with
  | [] => none
  | src :: _ =>
    some
      { ean := r.gtin
        name := r.headline
        price := (parsePrice r.priceStr).getD 0
        quantity := 0
        imageSrc := some src }

/-- Model of `impl From<ApiResponse> for Product` in src/main.rs lines
68-78: total, no image handling; an unparseable price string degrades to
`0.0` via `unwrap_or(0.0)`. -/
def productFromMain (r : ApiResponseMain) : ProductMain :=
  { ean := r.gtin
    name := r.headline
    price := (parsePrice r.priceStr).getD 0
    quantity := 0 }

/-- Model of `CachedItem` (src/main.rs lines 36-39): a product plus its
absolute expiry time, in minutes. -/
structure CachedItem where
  product : ProductMain
  expiresAt : Int
deriving DecidableEq, Repr

/-- The cache TTL: `Duration::minutes(30)`. -/
def cacheTtlMinutes : Int := 30

/-- The cache, `HashMap<String, CachedItem>`, modelled as an association
list where the most recent insertion for a key shadows older ones. -/
def Cache := List (String × CachedItem)

/-- Map read: the entry currently associated with a key, if any. -/
def cacheFind (cache : Cache) (ean : String) : Option CachedItem :=
  List.lookup ean cache

/-- Model of the `cache.insert` call of `fetch_product_info`
(src/main.rs lines 96-99): overwrites any entry for the key with one whose
`expires_at` is `now + Duration::minutes(30)`. -/
def cachePut (cache : Cache) (ean : String) (p : ProductMain) (now : Int) :
    Cache :=
  (ean, ⟨p, now + cacheTtlMinutes⟩) :: cache

/-- The cache read of `fetch_product_info` (src/main.rs lines 82-87, and
identically src/ui/dmhelper.rs lines 171-175): a cached product is served
only when the entry exists and `expires_at > now` (strictly). -/
def cacheGetFresh (cache : Cache) (ean : String) (now : Int) :
    Option ProductMain :=
  match cacheFind cache ean with
  | some item => if item.expiresAt > now then some item.product else none
  | none => none

/-- The lookup-error taxonomy of the specification (section 7). -/
inductive LookupError where
  | Transport : LookupError
  | InvalidResponse (cause : ParseError) : LookupError
deriving DecidableEq, Repr

/-- Model of `fetch_product_info` (src/main.rs lines 80-106).  The network
collaborator `reqwest::blocking::get(url)?.json()?` is passed in as
`remote : Except Unit Json` (its transport-or-decode failure is the `Unit`
error).  Returns the lookup result paired with the cache after the call. -/
def fetchProductInfo (ean : String) (cache : Cache) (now : Int)
    (remote : Except Unit Json) : Except LookupError ProductMain × Cache :=
  match cacheGetFresh cache ean now with
  | some p => (.ok p, cache)
  | none =>
    match remote with
    | .error _ => (.error .Transport, cache)
    | .ok resp =>
      match parseApiResponseMain resp with
      | .error e => (.error (.InvalidResponse e), cache)
      | .ok api =>
        let product := productFromMain api
        (.ok product, cachePut cache ean product now)

/-- Increments the quantity of the first cart line with the given `ean`
by `q`, leaving every other line (and the matched line's other fields)
unchanged.  Models `self.cart[index].quantity += product.quantity` where
`index` is the first `position` matching the ean
(src/ui/dmhelper.rs lines 261-267). -/
def bumpFirst (cart : List Product) (ean : String) (q : Int) : List Product :=
  match cart with
  | [] => []
  | item :: rest =>
    if item.ean == ean then { item with quantity := item.quantity + q } :: rest
    else item :: bumpFirst rest ean q

/-- Model of the GUI's "Dodaj do koszyka" handler
(src/ui/dmhelper.rs lines 257-272), the repository's `add_or_merge`: a
zero-quantity product is rejected outright; a product whose ean already
appears in the cart merges into that line; otherwise the product is pushed
at the end. -/
def addToCart (cart : List Product) (product : Product) : List Product :=
  if product.quantity == 0 then cart
  else if cart.any (fun item => item.ean == product.ean) then
    bumpFirst cart product.ean product.quantity
  else cart ++ [product]

/-- Model of Rust's `str::trim`: drops whitespace from both ends. -/
def rustTrim (s : String) : String :=
  (((s.toList.dropWhile Char.isWhitespace).reverse.dropWhile
      Char.isWhitespace).reverse).asString

/-- Model of Rust's `str::to_lowercase`, restricted to the per-character
lowering that barcode strings (ASCII digits and letters) exercise. -/
def rustToLower (s : String) : String :=
  (s.toList.map Char.toLower).asString

/-- The CLI lookup key (src/main.rs line 120):
`ean.trim().to_lowercase()` — trim, then lower-case. -/
def normalizeCli (s : String) : String := rustToLower (rustTrim s)

/-- The GUI lookup key (src/ui/dmhelper.rs line 219): `self.ean.trim()` —
trim only, no lower-casing. -/
def normalizeGui (s : String) : String := rustTrim s

/-- A concrete product record used to instantiate counterexamples and
witnesses. -/
def sampleProduct : ProductMain :=
  { ean := "4008400109609", name := "Nivea Creme", price := 0, quantity := 0 }

/-- Updating the first matching line rewrites exactly that line. -/
theorem bumpFirst_append (pre post : List Product) (x : Product) (e : String)
    (q : Int) (hpre : ∀ y ∈ pre, y.ean ≠ e) (hx : x.ean = e) :
    bumpFirst (pre ++ x :: post) e q =
      pre ++ { x with quantity := x.quantity + q } :: post := by
  induction pre with
  | nil => simp [bumpFirst, hx]
  | cons a as ih =>
    have ha : a.ean ≠ e := hpre a (by simp)
    simp [bumpFirst, ha, ih (fun y hy => hpre y (by simp [hy]))]

/-- `bumpFirst` never changes how many lines carry a given ean. -/
theorem countP_bumpFirst (cart : List Product) (e e2 : String) (q : Int) :
    (bumpFirst cart e q).countP (fun p => p.ean == e2) =
      cart.countP (fun p => p.ean == e2) := by
  induction cart with
  | nil => simp [bumpFirst]
  | cons a as ih =>
    by_cases ha : (a.ean == e) = true
    · simp [bumpFirst, ha, List.countP_cons, ih]
    · simp only [bumpFirst, ha, Bool.false_eq_true, if_false, List.countP_cons, ih]

/-- A lookup either leaves the cache alone or, on a successful
fetch-and-parse, overwrites the entry at the key it was queried with. -/
theorem fetch_cache_cases (ean : String) (cache : Cache) (now : Int)
    (remote : Except Unit Json) :
    (fetchProductInfo ean cache now remote).2 = cache ∨
    ∃ p, (fetchProductInfo ean cache now remote).1 = .ok p ∧
      (fetchProductInfo ean cache now remote).2 = cachePut cache ean p now := by
  unfold fetchProductInfo
  rcases hc : cacheGetFresh cache ean now with _ | p <;> simp [hc]
  rcases remote with e | resp <;> simp
  rcases hp : parseApiResponseMain resp with e | api <;> simp [hp]

/-- Claim C1: an empty images list is parsed successfully, but the
conversion from the parsed response to a product does NOT degrade to an
absent image reference: `api_response.images[0]` indexes out of bounds and
panics (modelled as `none`), contradicting the claim that the conversion
never fails or aborts on an empty images list. -/
theorem c1_empty_images_conversion_aborts :
    deserializeImage (.arr []) = .ok []
  ∧ parseApiResponse (.obj [("gtin", .num 1), ("title", .obj [("headline", .str "n")]),
      ("price", .obj [("price", .str "2.99")]), ("images", .arr [])])
      = .ok { gtin := "1", headline := "n", priceStr := "2.99", images := [] }
  ∧ ∀ (gtin headline priceStr : String),
      productFrom { gtin := gtin, headline := headline, priceStr := priceStr, images := [] }
        = none :=
  ⟨rfl, rfl, fun _ _ _ => rfl⟩

/-- Claim C2: adding a record with positive quantity appends a new line at
the end when its ean is absent, merges into the first existing line for
that ean (keeping that line's price and name, adding the quantity) when
present, keeps the line count for that ean at one, and in particular
quantity 3 then quantity 2 of the same record yields one line of 5. -/
theorem c2_add_or_merge (cart : List Product) (rec : Product)
    (hq : 0 < rec.quantity) :
    ((∀ y ∈ cart, y.ean ≠ rec.ean) → addToCart cart rec = cart ++ [rec])
    ∧ (∀ pre x post, cart = pre ++ x :: post → x.ean = rec.ean →
        (∀ y ∈ pre, y.ean ≠ rec.ean) →
        addToCart cart rec =
          pre ++ { x with quantity := x.quantity + rec.quantity } :: post)
    ∧ (cart.countP (fun p => p.ean == rec.ean) = 1 →
        (addToCart cart rec).countP (fun p => p.ean == rec.ean) = 1)
    ∧ addToCart (addToCart [] { rec with quantity := 3 }) { rec with quantity := 2 }
        = [{ rec with quantity := 5 }] := by
  have hq0 : (rec.quantity == 0) = false := by
    simp only [beq_eq_false_iff_ne]; omega
  refine ⟨?_, ?_, ?_, ?_⟩
  · intro hnone
    have hany : cart.any (fun item => item.ean == rec.ean) = false := by
      simp only [List.any_eq_false, beq_iff_eq]; exact hnone
    simp [addToCart, hq0, hany]
  · rintro pre x post rfl hx hpre
    have hany : (pre ++ x :: post).any (fun item => item.ean == rec.ean) = true := by
      simp only [List.any_eq_true]
      exact ⟨x, by simp, by simp [hx]⟩
    simp only [addToCart, hq0, Bool.false_eq_true, if_false, hany, if_true]
    exact bumpFirst_append pre post x rec.ean rec.quantity hpre hx
  · intro hcount
    have hx : ∃ y ∈ cart, (fun p => p.ean == rec.ean) y = true := by
      by_contra hno
      push_neg at hno
      have : cart.countP (fun p => p.ean == rec.ean) = 0 := by
        rw [List.countP_eq_zero]
        intro y hy
        simpa using hno y hy
      omega
    have hany : cart.any (fun item => item.ean == rec.ean) = true := by
      simp only [List.any_eq_true]
      rcases hx with ⟨y, hy, hpy⟩
      exact ⟨y, hy, hpy⟩
    simp only [addToCart, hq0, Bool.false_eq_true, if_false, hany, if_true]
    rw [countP_bumpFirst]
    exact hcount
  · simp [addToCart, bumpFirst]

/-- Witness for C2 at a concrete record: quantity 3 then quantity 2 of the
same ean leaves exactly one line of quantity 5. -/
theorem c2_add_or_merge_witness :
    addToCart (addToCart [] { ean := "1", name := "n", price := 0, quantity := 3, imageSrc := none })
        { ean := "1", name := "n", price := 0, quantity := 2, imageSrc := none }
      = [{ ean := "1", name := "n", price := 0, quantity := 5, imageSrc := none }] :=
  (c2_add_or_merge [] { ean := "1", name := "n", price := 0, quantity := 1, imageSrc := none }
    (by decide)).2.2.2

/-- Counterexample to claim C3 at the window boundary: a record cached at
`t = 0` is already refused at `now = t + 30` minutes, because the freshness
test is the strict `expires_at > now`; the claim asserts `Some(record)` for
every `now ≤ t + 30`. -/
theorem c3_expiry_boundary_counterexample :
    cacheGetFresh (cachePut [] "4008400109609" sampleProduct 0)
      "4008400109609" 30 = none := rfl

/-- Claim C3 as amended: after `put` at time `t`, `get` succeeds exactly
when `now < expires_at = t + 30` minutes — `Some(record)` for
`now < t + 30` and `None` for `now ≥ t + 30`. -/
theorem c3_cache_window (cache : Cache) (ean : String) (p : ProductMain)
    (t now : Int) :
    (now < t + cacheTtlMinutes →
      cacheGetFresh (cachePut cache ean p t) ean now = some p)
    ∧ (t + cacheTtlMinutes ≤ now →
      cacheGetFresh (cachePut cache ean p t) ean now = none) := by
  constructor <;> intro h <;>
    simp [cacheGetFresh, cachePut, cacheFind, List.lookup] <;> omega

/-- Witness for C3 at a concrete entry: fresh one minute before the
boundary, stale at the boundary. -/
theorem c3_cache_window_witness :
    cacheGetFresh (cachePut [] "x" sampleProduct 0) "x" 29 = some sampleProduct
  ∧ cacheGetFresh (cachePut [] "x" sampleProduct 0) "x" 30 = none :=
  ⟨(c3_cache_window [] "x" sampleProduct 0 29).1 (by decide),
   (c3_cache_window [] "x" sampleProduct 0 30).2 (by decide)⟩

/-- Claim C4: a lookup that fails — transport error or parse error — leaves
the cache exactly as it was; whenever the cache does change, the lookup
succeeded and the change is precisely the insertion of the parsed product
at the queried key. -/
theorem c4_failed_lookup_preserves_cache (ean : String) (cache : Cache)
    (now : Int) (remote : Except Unit Json) :
    (∀ e, (fetchProductInfo ean cache now remote).1 = .error e →
      (fetchProductInfo ean cache now remote).2 = cache)
    ∧ ((fetchProductInfo ean cache now remote).2 ≠ cache →
      ∃ p, (fetchProductInfo ean cache now remote).1 = .ok p ∧
        (fetchProductInfo ean cache now remote).2 = cachePut cache ean p now) := by
  rcases fetch_cache_cases ean cache now remote with h2 | ⟨p, hp, hc⟩
  · exact ⟨fun _ _ => h2, fun hne => absurd h2 hne⟩
  · refine ⟨fun e he => ?_, fun _ => ⟨p, hp, hc⟩⟩
    rw [hp] at he
    exact Except.noConfusion he

/-- Witness for C4: a transport failure and a parse failure (empty-object
payload) each leave an empty cache empty. -/
theorem c4_failed_lookup_preserves_cache_witness :
    (fetchProductInfo "x" [] 0 (.error ())).2 = []
  ∧ (fetchProductInfo "x" [] 0 (.ok (.obj []))).2 = [] :=
  ⟨(c4_failed_lookup_preserves_cache "x" [] 0 (.error ())).1 .Transport rfl,
   (c4_failed_lookup_preserves_cache "x" [] 0 (.ok (.obj []))).1
     (.InvalidResponse .UnexpectedShape) rfl⟩

/-- Claim C5: a string-typed `gtin` makes the whole parse fail with
`InvalidIdentifierType` (in both the GUI and the CLI parser), while a
numeric `gtin` is accepted and rendered to its canonical decimal string. -/
theorem c5_identifier_must_be_numeric :
    (∀ (fields : List (String × Json)) (s : String),
      fields.lookup "gtin" = some (.str s) →
      parseApiResponse (.obj fields) = .error .InvalidIdentifierType)
  ∧ (∀ (fields : List (String × Json)) (s : String),
      fields.lookup "gtin" = some (.str s) →
      parseApiResponseMain (.obj fields) = .error .InvalidIdentifierType)
  ∧ (∀ n : Int, deserializeEan (.num n) = .ok (toString n)) := by
  refine ⟨?_, ?_, fun n => rfl⟩
  · intro fields s h
    have hne : fields ≠ [] := by intro he; simp [he] at h
    simp [parseApiResponse, List.isEmpty_iff, hne, requireField, h,
      deserializeEan, Bind.bind, Except.bind]
  · intro fields s h
    have hne : fields ≠ [] := by intro he; simp [he] at h
    simp [parseApiResponseMain, List.isEmpty_iff, hne, requireField, h,
      deserializeEan, Bind.bind, Except.bind]

/-- Witness for C5: the payload whose `gtin` is the string "00123" is
rejected by both parsers, and the numeric gtin 4008400109609 renders to
"4008400109609". -/
theorem c5_identifier_must_be_numeric_witness :
    parseApiResponse (.obj [("gtin", .str "00123")])
        = .error .InvalidIdentifierType
  ∧ parseApiResponseMain (.obj [("gtin", .str "00123")])
        = .error .InvalidIdentifierType
  ∧ deserializeEan (.num 4008400109609) = .ok "4008400109609" :=
  ⟨c5_identifier_must_be_numeric.1 _ "00123" rfl,
   c5_identifier_must_be_numeric.2.1 _ "00123" rfl,
   c5_identifier_must_be_numeric.2.2 4008400109609⟩

/-- Claim C6: an unparseable price string (such as "N/A") never fails the
conversion; the record is produced with `unit_price = 0`. -/
theorem c6_unparseable_price_defaults_zero :
    parsePrice "N/A" = none
  ∧ ∀ r : ApiResponseMain, parsePrice r.priceStr = none →
      productFromMain r =
        { ean := r.gtin, name := r.headline, price := 0, quantity := 0 } := by
  refine ⟨rfl, ?_⟩
  intro r h
  simp [productFromMain, h]

/-- Witness for C6: the concrete payload record with price "N/A" converts
to a product priced 0. -/
theorem c6_unparseable_price_defaults_zero_witness :
    productFromMain { gtin := "4008400109609", headline := "Nivea Creme", priceStr := "N/A" }
      = { ean := "4008400109609", name := "Nivea Creme", price := 0, quantity := 0 } :=
  c6_unparseable_price_defaults_zero.2 _ rfl

/-- Claim C7: for a non-empty object payload, each missing required field
— the identifier, the title (or its headline), the price (or its inner
price string), or the images key itself — fails the parse with
`MissingField` naming the missing field (given that the fields checked
before it are present and well-typed), and a payload without an images key
never parses successfully, whatever its other fields hold. -/
theorem c7_missing_required_field_fails (fields : List (String × Json))
    (hne : fields ≠ []) :
    (fields.lookup "gtin" = none →
      parseApiResponse (.obj fields) = .error (.MissingField "gtin"))
  ∧ (∀ n : Int, fields.lookup "gtin" = some (.num n) →
      (fields.lookup "title" = none →
        parseApiResponse (.obj fields) = .error (.MissingField "title"))
      ∧ (∀ tf, fields.lookup "title" = some (.obj tf) →
          tf.lookup "headline" = none →
          parseApiResponse (.obj fields) = .error (.MissingField "headline"))
      ∧ (∀ tf hs, fields.lookup "title" = some (.obj tf) →
          tf.lookup "headline" = some (.str hs) →
          (fields.lookup "price" = none →
            parseApiResponse (.obj fields) = .error (.MissingField "price"))
          ∧ (∀ pf, fields.lookup "price" = some (.obj pf) →
              pf.lookup "price" = none →
              parseApiResponse (.obj fields) = .error (.MissingField "price"))
          ∧ (∀ pf ps, fields.lookup "price" = some (.obj pf) →
              pf.lookup "price" = some (.str ps) →
              fields.lookup "images" = none →
              parseApiResponse (.obj fields) = .error (.MissingField "images"))))
  ∧ (fields.lookup "images" = none →
      ∀ r, parseApiResponse (.obj fields) ≠ .ok r) := by
  refine ⟨?_, ?_, ?_⟩
  · intro h
    simp [parseApiResponse, List.isEmpty_iff, hne, requireField, h,
      Bind.bind, Except.bind]
  · intro n hg
    refine ⟨?_, ?_, ?_⟩
    · intro ht
      simp [parseApiResponse, List.isEmpty_iff, hne, requireField, hg, ht,
        deserializeEan, Bind.bind, Except.bind]
    · intro tf ht hh
      simp [parseApiResponse, List.isEmpty_iff, hne, requireField, hg, ht,
        requireStrMember, hh, deserializeEan, Bind.bind, Except.bind]
    · intro tf hs ht hh
      refine ⟨?_, ?_, ?_⟩
      · intro hp
        simp [parseApiResponse, List.isEmpty_iff, hne, requireField, hg, ht,
          hp, requireStrMember, hh, deserializeEan, Bind.bind, Except.bind]
      · intro pf hp hpp
        simp [parseApiResponse, List.isEmpty_iff, hne, requireField, hg, ht,
          hp, requireStrMember, hh, hpp, deserializeEan, Bind.bind, Except.bind]
      · intro pf ps hp hpp hi
        simp [parseApiResponse, List.isEmpty_iff, hne, requireField, hg, ht,
          hp, hi, requireStrMember, hh, hpp, deserializeEan, Bind.bind,
          Except.bind]
  · intro hi r hok
    simp only [parseApiResponse, List.isEmpty_iff, hne, if_neg, requireField,
      hi, Bind.bind, Except.bind] at hok
    rcases hg : List.lookup "gtin" fields with _ | gv <;> simp [hg] at hok
    rcases hgv : deserializeEan gv with _ | gs <;> simp [hgv] at hok
    rcases ht : List.lookup "title" fields with _ | tv <;> simp [ht] at hok
    rcases htv : requireStrMember tv "headline" with _ | hs <;> simp [htv] at hok
    rcases hp : List.lookup "price" fields with _ | pv <;> simp [hp] at hok
    rcases hpv : requireStrMember pv "price" with _ | ps <;> simp [hpv] at hok

/-- Witness for C7: concrete payloads missing exactly one required field
each fail with `MissingField` naming that field. -/
theorem c7_missing_required_field_fails_witness :
    parseApiResponse (.obj [("title", .obj [("headline", .str "n")])])
        = .error (.MissingField "gtin")
  ∧ parseApiResponse (.obj [("gtin", .num 1)]) = .error (.MissingField "title")
  ∧ parseApiResponse (.obj [("gtin", .num 1), ("title", .obj [("alt", .str "n")])])
        = .error (.MissingField "headline")
  ∧ parseApiResponse (.obj [("gtin", .num 1), ("title", .obj [("headline", .str "n")])])
        = .error (.MissingField "price")
  ∧ parseApiResponse (.obj [("gtin", .num 1), ("title", .obj [("headline", .str "n")]),
        ("price", .obj [("cents", .num 299)])])
        = .error (.MissingField "price")
  ∧ parseApiResponse (.obj [("gtin", .num 1), ("title", .obj [("headline", .str "n")]),
        ("price", .obj [("price", .str "2.99")])])
        = .error (.MissingField "images") := by
  refine ⟨?_, ?_, ?_, ?_, ?_, ?_⟩
  · exact (c7_missing_required_field_fails
      [("title", .obj [("headline", .str "n")])] (List.cons_ne_nil _ _)).1 rfl
  · exact ((c7_missing_required_field_fails
      [("gtin", .num 1)] (List.cons_ne_nil _ _)).2.1 1 rfl).1 rfl
  · exact ((c7_missing_required_field_fails
      [("gtin", .num 1), ("title", .obj [("alt", .str "n")])]
      (List.cons_ne_nil _ _)).2.1 1 rfl).2.1 [("alt", .str "n")] rfl rfl
  · exact (((c7_missing_required_field_fails
      [("gtin", .num 1), ("title", .obj [("headline", .str "n")])]
      (List.cons_ne_nil _ _)).2.1 1 rfl).2.2
      [("headline", .str "n")] "n" rfl rfl).1 rfl
  · exact (((c7_missing_required_field_fails
      [("gtin", .num 1), ("title", .obj [("headline", .str "n")]),
        ("price", .obj [("cents", .num 299)])]
      (List.cons_ne_nil _ _)).2.1 1 rfl).2.2
      [("headline", .str "n")] "n" rfl rfl).2.1 [("cents", .num 299)] rfl rfl
  · exact (((c7_missing_required_field_fails
      [("gtin", .num 1), ("title", .obj [("headline", .str "n")]),
        ("price", .obj [("price", .str "2.99")])]
      (List.cons_ne_nil _ _)).2.1 1 rfl).2.2
      [("headline", .str "n")] "n" rfl rfl).2.2 [("price", .str "2.99")] "2.99" rfl rfl rfl

/-- Claim C8: adding a zero-quantity record to the cart is a no-op — the
GUI handler returns before touching the cart. -/
theorem c8_zero_quantity_noop (cart : List Product) (product : Product)
    (h : product.quantity = 0) : addToCart cart product = cart := by
  simp [addToCart, h]

/-- Witness for C8 at a concrete cart and record. -/
theorem c8_zero_quantity_noop_witness :
    addToCart [{ ean := "2", name := "m", price := 0, quantity := 7, imageSrc := none }]
      { ean := "1", name := "n", price := 0, quantity := 0, imageSrc := none }
      = [{ ean := "2", name := "m", price := 0, quantity := 7, imageSrc := none }] :=
  c8_zero_quantity_noop _ _ rfl

/-- Counterexample to claim C9: the GUI lookup key is only trimmed, not
lower-cased, so the raw identifiers "ABC" and "abc" — differing only in
letter case — map to different cache keys, and an entry cached under the
GUI key of "abc" is not found under the GUI key of "ABC". -/
theorem c9_gui_no_lowercase_counterexample :
    normalizeGui "ABC" ≠ normalizeGui "abc"
  ∧ cacheGetFresh (cachePut [] (normalizeGui "abc") sampleProduct 0)
      (normalizeGui "ABC") 0 = none := by
  constructor <;> decide

/-- Claim C9 as amended: the CLI lookup key is trim-then-lower-case while
the GUI lookup key is trim only, so identifiers differing only in
surrounding whitespace share a key in both paths (case-differing ones only
in the CLI); and within one lookup the key written on a successful fetch is
the very key that was read — the cache is either untouched or written at
the queried key. -/
theorem c9_normalization_amended (s t : String) (h : rustTrim s = rustTrim t) :
    normalizeGui s = normalizeGui t
  ∧ normalizeCli s = normalizeCli t
  ∧ (∀ (ean : String) (cache : Cache) (now : Int) (remote : Except Unit Json),
      (fetchProductInfo ean cache now remote).2 = cache ∨
      ∃ p, (fetchProductInfo ean cache now remote).1 = .ok p ∧
        (fetchProductInfo ean cache now remote).2 = cachePut cache ean p now) := by
  refine ⟨by simp [normalizeGui, h], by simp [normalizeCli, h], ?_⟩
  intro ean cache now remote
  exact fetch_cache_cases ean cache now remote

/-- Witness for C9 at concrete raw identifiers differing only in
surrounding whitespace. -/
theorem c9_normalization_amended_witness :
    normalizeGui " 123 " = normalizeGui "123"
  ∧ normalizeCli " 123 " = normalizeCli "123" :=
  ⟨(c9_normalization_amended " 123 " "123" (by decide)).1,
   (c9_normalization_amended " 123 " "123" (by decide)).2.1⟩

/-- Claim C10: an images entry that is an object without a "src" key does
not fail the image deserializer — the whole array still parses — and the
extracted source for that entry is the literal text "null" (the JSON null
rendered and quote-stripped). -/
theorem c10_missing_src_renders_null (fields : List (String × Json))
    (h : fields.lookup "src" = none) :
    extractSrc (.obj fields) = "null"
  ∧ ∀ elems : List Json,
      deserializeImage (.arr elems) = .ok (elems.map extractSrc) := by
  constructor
  · unfold extractSrc
    have hidx : jsonIndex (.obj fields) "src" = .null := by
      simp [jsonIndex, h]
    rw [hidx]
    decide
  · intro elems
    rfl

/-- Witness for C10: a concrete entry carrying only an "alt" key yields the
source text "null", inside a successfully parsed array. -/
theorem c10_missing_src_renders_null_witness :
    extractSrc (.obj [("alt", .str "x")]) = "null"
  ∧ deserializeImage (.arr [.obj [("alt", .str "x")]]) = .ok ["null"] := by
  have h := c10_missing_src_renders_null [("alt", .str "x")] rfl
  exact ⟨h.1, by rw [(h.2 [.obj [("alt", .str "x")]])]; simp [h.1]⟩
